import Mathlib

/-!
Shallow embedding of the node-live-text-to-speech starter:
the client-side audio assembly (src/frontend/main.js) and the
server-side relay message handling (src/unnamed/part_002, src/server.js).
Byte buffers are lists of naturals; DataView writes are modelled with
explicit truncation modulo 2^32 / 2^16.
-/

namespace LiveTTS

/-- JS ToUint32 truncation used by DataView.setUint32. -/
def u32 (v : Nat) : Nat := v % 4294967296

/-- JS ToUint16 truncation used by DataView.setUint16. -/
def u16 (v : Nat) : Nat := v % 65536

/-- Little-endian byte expansion of a 32-bit value, as DataView.setUint32 with
littleEndian = true lays it out. -/
def encLE32 (v : Nat) : List Nat :=
  [u32 v % 256, u32 v / 256 % 256, u32 v / 65536 % 256, u32 v / 16777216 % 256]

/-- Big-endian byte expansion of a 32-bit value (DataView.setUint32 with
littleEndian = false). -/
def encBE32 (v : Nat) : List Nat := (encLE32 v).reverse

/-- Little-endian byte expansion of a 16-bit value (DataView.setUint16). -/
def encLE16 (v : Nat) : List Nat := [u16 v % 256, u16 v / 256 % 256]

/-- Write a list of bytes into a buffer starting at a given offset: the bytes
at positions off, off+1, ... are replaced by bs, everything else is kept. -/
def setBytes (a : List Nat) (off : Nat) (bs : List Nat) : List Nat :=
  a.take off ++ bs ++ a.drop (off + bs.length)

/-- DataView.setUint32 on a byte buffer. -/
def setUint32 (a : List Nat) (off : Nat) (v : Nat) (littleEndian : Bool) : List Nat :=
  setBytes a off (if littleEndian then encLE32 v else encBE32 v)

/-- DataView.setUint16 on a byte buffer. -/
def setUint16 (a : List Nat) (off : Nat) (v : Nat) (littleEndian : Bool) : List Nat :=
  setBytes a off (if littleEndian then encLE16 v else (encLE16 v).reverse)

/-- Read back a 32-bit little-endian value at an offset. -/
def decodeU32LE (l : List Nat) (off : Nat) : Nat :=
  l.getD off 0 + 256 * l.getD (off + 1) 0 + 65536 * l.getD (off + 2) 0
    + 16777216 * l.getD (off + 3) 0

/-- createWavHeader from src/frontend/main.js lines 374-405: builds the
44-byte WAV header for raw PCM data of the given size, write for write. -/
def createWavHeader (dataSize : Nat) : List Nat :=
  let sampleRate := 48000
  let numChannels := 1
  let bitsPerSample := 16
  let byteRate := sampleRate * numChannels * (bitsPerSample / 8)
  let blockAlign := numChannels * (bitsPerSample / 8)
  let fileSize := 36 + dataSize
  let header := List.replicate 44 0
  let header := setUint32 header 0 0x52494646 false
  let header := setUint32 header 4 fileSize true
  let header := setUint32 header 8 0x57415645 false
  let header := setUint32 header 12 0x666d7420 false
  let header := setUint32 header 16 16 true
  let header := setUint16 header 20 1 true
  let header := setUint16 header 22 numChannels true
  let header := setUint32 header 24 sampleRate true
  let header := setUint32 header 28 byteRate true
  let header := setUint16 header 32 blockAlign true
  let header := setUint16 header 34 bitsPerSample true
  let header := setUint32 header 36 0x64617461 false
  let header := setUint32 header 40 dataSize true
  header

/-- The WAV header written out as an explicit 44-byte list. -/
def wavHeaderBytes (d : Nat) : List Nat :=
  [82, 73, 70, 70,
   u32 (36 + d) % 256, u32 (36 + d) / 256 % 256,
     u32 (36 + d) / 65536 % 256, u32 (36 + d) / 16777216 % 256,
   87, 65, 86, 69,
   102, 109, 116, 32,
   16, 0, 0, 0,
   1, 0,
   1, 0,
   128, 187, 0, 0,
   0, 119, 1, 0,
   2, 0,
   16, 0,
   100, 97, 116, 97,
   u32 d % 256, u32 d / 256 % 256, u32 d / 65536 % 256, u32 d / 16777216 % 256]

theorem createWavHeader_eq (d : Nat) : createWavHeader d = wavHeaderBytes d := by
  have s1 :
      setUint32 (List.replicate 44 0) 0 0x52494646 false
        = 82 :: 73 :: 70 :: 70 :: List.replicate 40 0 :=
    rfl
  have s2 :
    ∀ x0 x1 x2 x3 : Nat,
      setUint32 (x0 :: x1 :: x2 :: x3 :: List.replicate 40 0) 4 (36 + d) true
        = x0 :: x1 :: x2 :: x3 :: u32 (36 + d) % 256 :: u32 (36 + d) / 256 % 256 :: u32 (36 + d) / 65536 % 256 :: u32 (36 + d) / 16777216 % 256 :: List.replicate 36 0 :=
    fun _ _ _ _ => rfl
  have s3 :
    ∀ x0 x1 x2 x3 x4 x5 x6 x7 : Nat,
      setUint32 (x0 :: x1 :: x2 :: x3 :: x4 :: x5 :: x6 :: x7 :: List.replicate 36 0) 8 0x57415645 false
        = x0 :: x1 :: x2 :: x3 :: x4 :: x5 :: x6 :: x7 :: 87 :: 65 :: 86 :: 69 :: List.replicate 32 0 :=
    fun _ _ _ _ _ _ _ _ => rfl
  have s4 :
    ∀ x0 x1 x2 x3 x4 x5 x6 x7 x8 x9 x10 x11 : Nat,
      setUint32 (x0 :: x1 :: x2 :: x3 :: x4 :: x5 :: x6 :: x7 :: x8 :: x9 :: x10 :: x11 :: List.replicate 32 0) 12 0x666d7420 false
        = x0 :: x1 :: x2 :: x3 :: x4 :: x5 :: x6 :: x7 :: x8 :: x9 :: x10 :: x11 :: 102 :: 109 :: 116 :: 32 :: List.replicate 28 0 :=
    fun _ _ _ _ _ _ _ _ _ _ _ _ => rfl
  have s5 :
    ∀ x0 x1 x2 x3 x4 x5 x6 x7 x8 x9 x10 x11 x12 x13 x14 x15 : Nat,
      setUint32 (x0 :: x1 :: x2 :: x3 :: x4 :: x5 :: x6 :: x7 :: x8 :: x9 :: x10 :: x11 :: x12 :: x13 :: x14 :: x15 :: List.replicate 28 0) 16 16 true
        = x0 :: x1 :: x2 :: x3 :: x4 :: x5 :: x6 :: x7 :: x8 :: x9 :: x10 :: x11 :: x12 :: x13 :: x14 :: x15 :: 16 :: 0 :: 0 :: 0 :: List.replicate 24 0 :=
    fun _ _ _ _ _ _ _ _ _ _ _ _ _ _ _ _ => rfl
  have s6 :
    ∀ x0 x1 x2 x3 x4 x5 x6 x7 x8 x9 x10 x11 x12 x13 x14 x15 x16 x17 x18 x19 : Nat,
      setUint16 (x0 :: x1 :: x2 :: x3 :: x4 :: x5 :: x6 :: x7 :: x8 :: x9 :: x10 :: x11 :: x12 :: x13 :: x14 :: x15 :: x16 :: x17 :: x18 :: x19 :: List.replicate 24 0) 20 1 true
        = x0 :: x1 :: x2 :: x3 :: x4 :: x5 :: x6 :: x7 :: x8 :: x9 :: x10 :: x11 :: x12 :: x13 :: x14 :: x15 :: x16 :: x17 :: x18 :: x19 :: 1 :: 0 :: List.replicate 22 0 :=
    fun _ _ _ _ _ _ _ _ _ _ _ _ _ _ _ _ _ _ _ _ => rfl
  have s7 :
    ∀ x0 x1 x2 x3 x4 x5 x6 x7 x8 x9 x10 x11 x12 x13 x14 x15 x16 x17 x18 x19 x20 x21 : Nat,
      setUint16 (x0 :: x1 :: x2 :: x3 :: x4 :: x5 :: x6 :: x7 :: x8 :: x9 :: x10 :: x11 :: x12 :: x13 :: x14 :: x15 :: x16 :: x17 :: x18 :: x19 :: x20 :: x21 :: List.replicate 22 0) 22 1 true
        = x0 :: x1 :: x2 :: x3 :: x4 :: x5 :: x6 :: x7 :: x8 :: x9 :: x10 :: x11 :: x12 :: x13 :: x14 :: x15 :: x16 :: x17 :: x18 :: x19 :: x20 :: x21 :: 1 :: 0 :: List.replicate 20 0 :=
    fun _ _ _ _ _ _ _ _ _ _ _ _ _ _ _ _ _ _ _ _ _ _ => rfl
  have s8 :
    ∀ x0 x1 x2 x3 x4 x5 x6 x7 x8 x9 x10 x11 x12 x13 x14 x15 x16 x17 x18 x19 x20 x21 x22 x23 : Nat,
      setUint32 (x0 :: x1 :: x2 :: x3 :: x4 :: x5 :: x6 :: x7 :: x8 :: x9 :: x10 :: x11 :: x12 :: x13 :: x14 :: x15 :: x16 :: x17 :: x18 :: x19 :: x20 :: x21 :: x22 :: x23 :: List.replicate 20 0) 24 48000 true
        = x0 :: x1 :: x2 :: x3 :: x4 :: x5 :: x6 :: x7 :: x8 :: x9 :: x10 :: x11 :: x12 :: x13 :: x14 :: x15 :: x16 :: x17 :: x18 :: x19 :: x20 :: x21 :: x22 :: x23 :: 128 :: 187 :: 0 :: 0 :: List.replicate 16 0 :=
    fun _ _ _ _ _ _ _ _ _ _ _ _ _ _ _ _ _ _ _ _ _ _ _ _ => rfl
  have s9 :
    ∀ x0 x1 x2 x3 x4 x5 x6 x7 x8 x9 x10 x11 x12 x13 x14 x15 x16 x17 x18 x19 x20 x21 x22 x23 x24 x25 x26 x27 : Nat,
      setUint32 (x0 :: x1 :: x2 :: x3 :: x4 :: x5 :: x6 :: x7 :: x8 :: x9 :: x10 :: x11 :: x12 :: x13 :: x14 :: x15 :: x16 :: x17 :: x18 :: x19 :: x20 :: x21 :: x22 :: x23 :: x24 :: x25 :: x26 :: x27 :: List.replicate 16 0) 28 (48000 * 1 * (16 / 8)) true
        = x0 :: x1 :: x2 :: x3 :: x4 :: x5 :: x6 :: x7 :: x8 :: x9 :: x10 :: x11 :: x12 :: x13 :: x14 :: x15 :: x16 :: x17 :: x18 :: x19 :: x20 :: x21 :: x22 :: x23 :: x24 :: x25 :: x26 :: x27 :: 0 :: 119 :: 1 :: 0 :: List.replicate 12 0 :=
    fun _ _ _ _ _ _ _ _ _ _ _ _ _ _ _ _ _ _ _ _ _ _ _ _ _ _ _ _ => rfl
  have s10 :
    ∀ x0 x1 x2 x3 x4 x5 x6 x7 x8 x9 x10 x11 x12 x13 x14 x15 x16 x17 x18 x19 x20 x21 x22 x23 x24 x25 x26 x27 x28 x29 x30 x31 : Nat,
      setUint16 (x0 :: x1 :: x2 :: x3 :: x4 :: x5 :: x6 :: x7 :: x8 :: x9 :: x10 :: x11 :: x12 :: x13 :: x14 :: x15 :: x16 :: x17 :: x18 :: x19 :: x20 :: x21 :: x22 :: x23 :: x24 :: x25 :: x26 :: x27 :: x28 :: x29 :: x30 :: x31 :: List.replicate 12 0) 32 (1 * (16 / 8)) true
        = x0 :: x1 :: x2 :: x3 :: x4 :: x5 :: x6 :: x7 :: x8 :: x9 :: x10 :: x11 :: x12 :: x13 :: x14 :: x15 :: x16 :: x17 :: x18 :: x19 :: x20 :: x21 :: x22 :: x23 :: x24 :: x25 :: x26 :: x27 :: x28 :: x29 :: x30 :: x31 :: 2 :: 0 :: List.replicate 10 0 :=
    fun _ _ _ _ _ _ _ _ _ _ _ _ _ _ _ _ _ _ _ _ _ _ _ _ _ _ _ _ _ _ _ _ => rfl
  have s11 :
    ∀ x0 x1 x2 x3 x4 x5 x6 x7 x8 x9 x10 x11 x12 x13 x14 x15 x16 x17 x18 x19 x20 x21 x22 x23 x24 x25 x26 x27 x28 x29 x30 x31 x32 x33 : Nat,
      setUint16 (x0 :: x1 :: x2 :: x3 :: x4 :: x5 :: x6 :: x7 :: x8 :: x9 :: x10 :: x11 :: x12 :: x13 :: x14 :: x15 :: x16 :: x17 :: x18 :: x19 :: x20 :: x21 :: x22 :: x23 :: x24 :: x25 :: x26 :: x27 :: x28 :: x29 :: x30 :: x31 :: x32 :: x33 :: List.replicate 10 0) 34 16 true
        = x0 :: x1 :: x2 :: x3 :: x4 :: x5 :: x6 :: x7 :: x8 :: x9 :: x10 :: x11 :: x12 :: x13 :: x14 :: x15 :: x16 :: x17 :: x18 :: x19 :: x20 :: x21 :: x22 :: x23 :: x24 :: x25 :: x26 :: x27 :: x28 :: x29 :: x30 :: x31 :: x32 :: x33 :: 16 :: 0 :: List.replicate 8 0 :=
    fun _ _ _ _ _ _ _ _ _ _ _ _ _ _ _ _ _ _ _ _ _ _ _ _ _ _ _ _ _ _ _ _ _ _ => rfl
  have s12 :
    ∀ x0 x1 x2 x3 x4 x5 x6 x7 x8 x9 x10 x11 x12 x13 x14 x15 x16 x17 x18 x19 x20 x21 x22 x23 x24 x25 x26 x27 x28 x29 x30 x31 x32 x33 x34 x35 : Nat,
      setUint32 (x0 :: x1 :: x2 :: x3 :: x4 :: x5 :: x6 :: x7 :: x8 :: x9 :: x10 :: x11 :: x12 :: x13 :: x14 :: x15 :: x16 :: x17 :: x18 :: x19 :: x20 :: x21 :: x22 :: x23 :: x24 :: x25 :: x26 :: x27 :: x28 :: x29 :: x30 :: x31 :: x32 :: x33 :: x34 :: x35 :: List.replicate 8 0) 36 0x64617461 false
        = x0 :: x1 :: x2 :: x3 :: x4 :: x5 :: x6 :: x7 :: x8 :: x9 :: x10 :: x11 :: x12 :: x13 :: x14 :: x15 :: x16 :: x17 :: x18 :: x19 :: x20 :: x21 :: x22 :: x23 :: x24 :: x25 :: x26 :: x27 :: x28 :: x29 :: x30 :: x31 :: x32 :: x33 :: x34 :: x35 :: 100 :: 97 :: 116 :: 97 :: List.replicate 4 0 :=
    fun _ _ _ _ _ _ _ _ _ _ _ _ _ _ _ _ _ _ _ _ _ _ _ _ _ _ _ _ _ _ _ _ _ _ _ _ => rfl
  have s13 :
    ∀ x0 x1 x2 x3 x4 x5 x6 x7 x8 x9 x10 x11 x12 x13 x14 x15 x16 x17 x18 x19 x20 x21 x22 x23 x24 x25 x26 x27 x28 x29 x30 x31 x32 x33 x34 x35 x36 x37 x38 x39 : Nat,
      setUint32 (x0 :: x1 :: x2 :: x3 :: x4 :: x5 :: x6 :: x7 :: x8 :: x9 :: x10 :: x11 :: x12 :: x13 :: x14 :: x15 :: x16 :: x17 :: x18 :: x19 :: x20 :: x21 :: x22 :: x23 :: x24 :: x25 :: x26 :: x27 :: x28 :: x29 :: x30 :: x31 :: x32 :: x33 :: x34 :: x35 :: x36 :: x37 :: x38 :: x39 :: List.replicate 4 0) 40 d true
        = [x0, x1, x2, x3, x4, x5, x6, x7, x8, x9, x10, x11, x12, x13, x14, x15, x16, x17, x18, x19, x20, x21, x22, x23, x24, x25, x26, x27, x28, x29, x30, x31, x32, x33, x34, x35, x36, x37, x38, x39, u32 d % 256, u32 d / 256 % 256, u32 d / 65536 % 256, u32 d / 16777216 % 256] :=
    fun _ _ _ _ _ _ _ _ _ _ _ _ _ _ _ _ _ _ _ _ _ _ _ _ _ _ _ _ _ _ _ _ _ _ _ _ _ _ _ _ => rfl
  simp only [createWavHeader]
  rw [s1, s2, s3, s4, s5, s6, s7, s8, s9, s10, s11, s12, s13]
  rfl


theorem createWavHeader_length (d : Nat) : (createWavHeader d).length = 44 := by
  rw [createWavHeader_eq]; rfl

/-! Audio chunk accumulation and finalization (src/frontend/main.js).
A chunk is a list of bytes; the buffer is the list of chunks in arrival
order. -/

/-- Provider-supplied metadata descriptors kept by handleMetadata
(main.js 339-348). Field values are whatever JSON values arrived. -/
structure Meta where
  request_id : Option String
  model_name : Option String
  model_version : Option String
  model_uuid : Option String
deriving DecidableEq

/-- The currentGeneration record of the frontend state (main.js 41-47). -/
structure Generation where
  text : String
  model : String
  audioChunks : List (List Nat)
  startTime : Option Nat
  metadata : Option Meta
deriving DecidableEq

/-- The reset value of currentGeneration (main.js 173-179). -/
def emptyGeneration : Generation :=
  { text := "", model := "", audioChunks := [], startTime := none, metadata := none }

/-- handleAudioChunk (main.js 356-367): push the arriving chunk at the end of
the buffer. -/
def handleAudioChunk (g : Generation) (chunk : List Nat) : Generation :=
  { g with audioChunks := g.audioChunks ++ [chunk] }

/-- Deliver a whole sequence of chunks in arrival order. -/
def deliverChunks (g : Generation) (cs : List (List Nat)) : Generation :=
  cs.foldl handleAudioChunk g

/-- Total size of the accumulated PCM data, as the reduce in handleFlushed
(main.js 416) computes it. -/
def sumLen (cs : List (List Nat)) : Nat := (cs.map List.length).sum

/-- handleFlushed (main.js 410-431): synthesize the WAV header for the
accumulated size and concatenate header and chunks in arrival order. -/
def finalizeAudio (cs : List (List Nat)) : List Nat :=
  createWavHeader (sumLen cs) ++ cs.flatten

theorem finalizeAudio_length (cs : List (List Nat)) :
    (finalizeAudio cs).length = 44 + sumLen cs := by
  unfold finalizeAudio
  rw [List.length_append, createWavHeader_length, List.length_flatten, sumLen]

theorem decodeU32LE_finalize_40 (cs : List (List Nat)) :
    decodeU32LE (finalizeAudio cs) 40
      = u32 (sumLen cs) % 256 + 256 * (u32 (sumLen cs) / 256 % 256)
        + 65536 * (u32 (sumLen cs) / 65536 % 256)
        + 16777216 * (u32 (sumLen cs) / 16777216 % 256) := by
  unfold finalizeAudio
  rw [createWavHeader_eq]
  rfl

theorem decodeU32LE_finalize_4 (cs : List (List Nat)) :
    decodeU32LE (finalizeAudio cs) 4
      = u32 (36 + sumLen cs) % 256 + 256 * (u32 (36 + sumLen cs) / 256 % 256)
        + 65536 * (u32 (36 + sumLen cs) / 65536 % 256)
        + 16777216 * (u32 (36 + sumLen cs) / 16777216 % 256) := by
  unfold finalizeAudio
  rw [createWavHeader_eq]
  rfl

theorem le32_recombine (x : Nat) (h : x < 4294967296) :
    x % 256 + 256 * (x / 256 % 256) + 65536 * (x / 65536 % 256)
      + 16777216 * (x / 16777216 % 256) = x := by omega

theorem deliverChunks_audioChunks (g : Generation) (cs : List (List Nat)) :
    (deliverChunks g cs).audioChunks = g.audioChunks ++ cs := by
  induction cs generalizing g with
  | nil => simp [deliverChunks]
  | cons c rest ih =>
      rw [show deliverChunks g (c :: rest) = deliverChunks (handleAudioChunk g c) rest from rfl,
        ih]
      simp [handleAudioChunk]

/-- Chunks of 100, 200 and 50 bytes, the scenario of the spec. -/
def scenarioChunks : List (List Nat) :=
  [List.replicate 100 0, List.replicate 200 0, List.replicate 50 0]

/-- A single chunk whose size reaches 2^32 bytes. -/
def overflowChunks : List (List Nat) := [List.replicate 4294967296 0]

/-- C1 (counterexample): for a chunk sequence whose total size is 2^32 bytes
the data-size field of the finalized object decodes to 0, not to the sum, so
the claim is false as stated for arbitrary chunk sequences. -/
theorem finalize_data_size_field_overflow :
    decodeU32LE (finalizeAudio overflowChunks) 40 ≠ sumLen overflowChunks := by
  have hsum : sumLen overflowChunks = 4294967296 := by
    rw [overflowChunks, sumLen, List.map_cons, List.map_nil, List.length_replicate,
      List.sum_cons, List.sum_nil]
    omega
  rw [decodeU32LE_finalize_40, hsum]
  norm_num [u32]

/-- C1 (amended): whenever the total chunk size plus 36 fits in 32 bits, the
finalized audio object is 44 bytes of header plus the chunk bytes, its
data-size field at bytes 40-43 decodes little-endian to the total chunk size,
and its file-size field at bytes 4-7 decodes to that size plus 36. -/
theorem finalize_size_fields (cs : List (List Nat))
    (h : 36 + sumLen cs < 4294967296) :
    (finalizeAudio cs).length = 44 + sumLen cs ∧
    decodeU32LE (finalizeAudio cs) 40 = sumLen cs ∧
    decodeU32LE (finalizeAudio cs) 4 = 36 + sumLen cs := by
  refine ⟨finalizeAudio_length cs, ?_, ?_⟩
  · rw [decodeU32LE_finalize_40]
    have hu : u32 (sumLen cs) = sumLen cs := Nat.mod_eq_of_lt (by omega)
    rw [hu]
    exact le32_recombine _ (by omega)
  · rw [decodeU32LE_finalize_4]
    have hu : u32 (36 + sumLen cs) = 36 + sumLen cs := Nat.mod_eq_of_lt h
    rw [hu]
    exact le32_recombine _ h

/-- C1 (witness): chunks of sizes 100, 200 and 50 give a 394-byte object
whose data-size field decodes to 350. -/
theorem finalize_size_fields_witness :
    36 + sumLen scenarioChunks < 4294967296 ∧
    (finalizeAudio scenarioChunks).length = 394 ∧
    decodeU32LE (finalizeAudio scenarioChunks) 40 = 350 := by
  have hsum : sumLen scenarioChunks = 350 := by
    rw [scenarioChunks, sumLen, List.map_cons, List.map_cons, List.map_cons, List.map_nil,
      List.length_replicate, List.length_replicate, List.length_replicate,
      List.sum_cons, List.sum_cons, List.sum_cons, List.sum_nil]
    omega
  have h : 36 + sumLen scenarioChunks < 4294967296 := by rw [hsum]; norm_num
  have hm := finalize_size_fields scenarioChunks h
  refine ⟨h, ?_, ?_⟩
  · rw [hm.1, hsum]
  · rw [hm.2.1, hsum]

/-- C3: appending chunks in arrival order and finalizing yields an object
whose payload after the 44-byte header is exactly the concatenation of the
chunks, unmodified and in order. -/
theorem chunk_order_preserved (cs : List (List Nat)) :
    (deliverChunks emptyGeneration cs).audioChunks = cs ∧
    (finalizeAudio ((deliverChunks emptyGeneration cs).audioChunks)).drop 44
      = cs.flatten := by
  have hacc : (deliverChunks emptyGeneration cs).audioChunks = cs := by
    rw [deliverChunks_audioChunks]; rfl
  refine ⟨hacc, ?_⟩
  rw [hacc]
  unfold finalizeAudio
  rw [show (44 : Nat) = (createWavHeader (sumLen cs)).length from
    (createWavHeader_length (sumLen cs)).symm]
  exact List.drop_left _ _

/-! The Generate button handler of the frontend (main.js 102-137). -/

/-- Outcome of a handleGenerate call: rejected for empty input, rejected
because a generation is in flight, or started (websocket connection opened). -/
inductive GenerateOutcome
  | emptyTextError
  | alreadyGenerating
  | started
deriving DecidableEq

/-- The part of the frontend state that handleGenerate touches. -/
structure ClientState where
  isGenerating : Bool
  currentGeneration : Generation
deriving DecidableEq

/-- handleGenerate (main.js 102-137): validate the trimmed text, reject when
a generation is already in progress, otherwise reset currentGeneration and
start generating. -/
def handleGenerate (st : ClientState) (inputText model : String) (now : Nat) :
    ClientState × GenerateOutcome :=
  let text := inputText.trim
  if text = "" then (st, .emptyTextError)
  else if st.isGenerating then (st, .alreadyGenerating)
  else
    ({ isGenerating := true,
       currentGeneration :=
         { text := text, model := model, audioChunks := [],
           startTime := some now, metadata := none } },
     .started)

/-- C8: submitting while a generation is active is rejected and leaves the
whole in-flight Generation record (buffer, text, model, startTime, metadata)
untouched; in fact the entire state is unchanged. -/
theorem submit_while_generating_frame (st : ClientState) (t m : String)
    (now : Nat) (h : st.isGenerating = true) :
    (handleGenerate st t m now).1 = st ∧
    (handleGenerate st t m now).1.currentGeneration = st.currentGeneration ∧
    (handleGenerate st t m now).2 ≠ GenerateOutcome.started := by
  unfold handleGenerate
  by_cases he : t.trim = ""
  · simp [he]
  · simp [he, h]

/-- C8 (witness): a concrete in-flight state is left untouched by a second
submit. -/
theorem submit_while_generating_frame_witness :
    (handleGenerate
        ⟨true, ⟨"hello", "aura-asteria-en", [[1, 2, 3]], some 17, none⟩⟩
        "more text" "aura-asteria-en" 99).1
      = ⟨true, ⟨"hello", "aura-asteria-en", [[1, 2, 3]], some 17, none⟩⟩ ∧
    (handleGenerate
        ⟨true, ⟨"hello", "aura-asteria-en", [[1, 2, 3]], some 17, none⟩⟩
        "more text" "aura-asteria-en" 99).1.currentGeneration
      = ⟨"hello", "aura-asteria-en", [[1, 2, 3]], some 17, none⟩ ∧
    (handleGenerate
        ⟨true, ⟨"hello", "aura-asteria-en", [[1, 2, 3]], some 17, none⟩⟩
        "more text" "aura-asteria-en" 99).2 ≠ GenerateOutcome.started := by
  exact submit_while_generating_frame _ "more text" "aura-asteria-en" 99 rfl

/-! Field-level description of the header layout, for checking the
endianness partition of createWavHeader. -/

/-- Byte order of a header field. -/
inductive Endian
  | little
  | big
deriving DecidableEq

/-- Whether a header field holds a number or a 4-character ASCII tag
literal. -/
inductive FieldKind
  | numeric
  | asciiTag
deriving DecidableEq

/-- One field of the synthesized header: its byte offset, width, byte order,
kind and value. -/
structure WavField where
  offset : Nat
  width : Nat
  endian : Endian
  kind : FieldKind
  value : Nat
deriving DecidableEq

/-- Encode one field into its bytes. -/
def renderField (f : WavField) : List Nat :=
  match f.width, f.endian with
  | 4, .little => encLE32 f.value
  | 4, .big => encBE32 f.value
  | 2, .little => encLE16 f.value
  | 2, .big => (encLE16 f.value).reverse
  | _, _ => List.replicate f.width 0

/-- Concatenate the encodings of a field list. -/
def renderFields (fs : List WavField) : List Nat := (fs.map renderField).flatten

/-- The fields written by createWavHeader, in source order, with the
endianness flag of each DataView call and the kind of each value (the four
ASCII tag literals RIFF, WAVE, fmt-space and data versus the numeric
fields). -/
def wavFields (d : Nat) : List WavField :=
  [⟨0, 4, .big, .asciiTag, 0x52494646⟩,
   ⟨4, 4, .little, .numeric, 36 + d⟩,
   ⟨8, 4, .big, .asciiTag, 0x57415645⟩,
   ⟨12, 4, .big, .asciiTag, 0x666d7420⟩,
   ⟨16, 4, .little, .numeric, 16⟩,
   ⟨20, 2, .little, .numeric, 1⟩,
   ⟨22, 2, .little, .numeric, 1⟩,
   ⟨24, 4, .little, .numeric, 48000⟩,
   ⟨28, 4, .little, .numeric, 96000⟩,
   ⟨32, 2, .little, .numeric, 2⟩,
   ⟨34, 2, .little, .numeric, 16⟩,
   ⟨36, 4, .big, .asciiTag, 0x64617461⟩,
   ⟨40, 4, .little, .numeric, d⟩]

/-- Check that a field list tiles the offsets from a start position up to
exactly 44. -/
def contiguousFrom : Nat → List WavField → Bool
  | n, [] => n == 44
  | n, f :: fs => (f.offset == n) && contiguousFrom (n + f.width) fs

/-- C7 (counterexample): the 44-byte header does not contain exactly two
big-endian fields; the big-endian ASCII tag fields are four (RIFF, WAVE,
fmt-space and data). -/
theorem wav_header_not_two_big_endian_fields :
    ((wavFields 0).filter (fun f => f.endian == Endian.big)).length ≠ 2 := by
  decide

/-- C7 (amended): the header is exactly the concatenation of the fields of
wavFields, which tile all 44 bytes with no gap; every numeric field is
little-endian, and the big-endian fields are exactly four 4-byte ASCII tag
fields. -/
theorem wav_header_field_layout (d : Nat) :
    createWavHeader d = renderFields (wavFields d) ∧
    contiguousFrom 0 (wavFields d) = true ∧
    (∀ f ∈ wavFields d, f.kind = FieldKind.numeric → f.endian = Endian.little) ∧
    ((wavFields d).filter (fun f => f.endian == Endian.big)).length = 4 ∧
    (∀ f ∈ wavFields d, f.endian = Endian.big →
      f.kind = FieldKind.asciiTag ∧ f.width = 4) := by
  refine ⟨?_, rfl, ?_, rfl, ?_⟩
  · rw [createWavHeader_eq]
    rfl
  · intro f hf hk
    simp only [wavFields, List.mem_cons, List.not_mem_nil, or_false] at hf
    rcases hf with h | h | h | h | h | h | h | h | h | h | h | h | h <;> subst h <;>
      first
        | rfl
        | simp at hk
  · intro f hf he
    simp only [wavFields, List.mem_cons, List.not_mem_nil, or_false] at hf
    rcases hf with h | h | h | h | h | h | h | h | h | h | h | h | h <;> subst h <;>
      first
        | exact ⟨rfl, rfl⟩
        | simp at he

/-- C7 (witness): the layout facts instantiated at data size 350 and at the
file-size and RIFF fields. -/
theorem wav_header_field_layout_witness :
    createWavHeader 350 = renderFields (wavFields 350) ∧
    contiguousFrom 0 (wavFields 350) = true ∧
    (⟨4, 4, Endian.little, FieldKind.numeric, 36 + 350⟩ : WavField).endian
        = Endian.little ∧
    ((wavFields 350).filter (fun f => f.endian == Endian.big)).length = 4 ∧
    ((⟨0, 4, Endian.big, FieldKind.asciiTag, 0x52494646⟩ : WavField).kind
        = FieldKind.asciiTag ∧
      (⟨0, 4, Endian.big, FieldKind.asciiTag, 0x52494646⟩ : WavField).width
        = 4) := by
  have h := wav_header_field_layout 350
  exact ⟨h.1, h.2.1,
    h.2.2.1 _ (by simp [wavFields]) rfl,
    h.2.2.2.1,
    h.2.2.2.2 _ (by simp [wavFields]) rfl⟩

/-! Close-code mirroring when the upstream leg closes
(src/server.js lines 161-168). -/

/-- The reserved close codes that may not be echoed. -/
def reservedCodes : List Int := [1004, 1005, 1006, 1015]

/-- The close code sent to the client when Deepgram closes with the given
code: in-range non-reserved codes pass through, everything else becomes the
normal closure code 1000. -/
def mirrorCloseCode (code : Int) : Int :=
  if 1000 ≤ code ∧ code ≤ 4999 ∧ code ∉ reservedCodes then code else 1000

/-- C5: every reserved code and every out-of-range value maps to 1000, and
every other in-range code passes through unchanged. -/
theorem mirror_close_code_spec (code : Int) :
    (code ∈ reservedCodes → mirrorCloseCode code = 1000) ∧
    ((code < 1000 ∨ 4999 < code) → mirrorCloseCode code = 1000) ∧
    (1000 ≤ code → code ≤ 4999 → code ∉ reservedCodes →
      mirrorCloseCode code = code) := by
  refine ⟨?_, ?_, ?_⟩
  · intro h
    rw [mirrorCloseCode, if_neg]
    rintro ⟨-, -, hn⟩
    exact hn h
  · intro h
    rw [mirrorCloseCode, if_neg]
    rintro ⟨h1, h2, -⟩
    rcases h with h | h <;> omega
  · intro h1 h2 h3
    rw [mirrorCloseCode, if_pos ⟨h1, h2, h3⟩]

/-- C5 (witness): concrete instances of each case of the mirroring map. -/
theorem mirror_close_code_spec_witness :
    mirrorCloseCode 1005 = 1000 ∧ mirrorCloseCode 999 = 1000 ∧
    mirrorCloseCode 5000 = 1000 ∧ mirrorCloseCode 1011 = 1011 :=
  ⟨(mirror_close_code_spec 1005).1 (by decide),
   (mirror_close_code_spec 999).2.1 (Or.inl (by decide)),
   (mirror_close_code_spec 5000).2.1 (Or.inr (by decide)),
   (mirror_close_code_spec 1011).2.2 (by decide) (by decide) (by decide)⟩

/-! The per-message downstream handler of the relay
(src/unnamed/part_002, clientWs message callback, lines 249-343). -/

/-- A JSON value as far as the handler inspects it: only strings are carried
with content, the other shapes matter only for truthiness and typeof. -/
inductive JValue
  | jstr (s : String)
  | jnum (n : Int)
  | jbool (b : Bool)
  | jnull
  | jobj
  | jarr
deriving DecidableEq

/-- JS truthiness of the text field (missing field is undefined, hence
falsy; the empty string and 0 and false and null are falsy). -/
def truthy : Option JValue → Bool
  | none => false
  | some (.jstr s) => !(s == "")
  | some (.jnum n) => !(n == 0)
  | some (.jbool b) => b
  | some .jnull => false
  | some .jobj => true
  | some .jarr => true

/-- The typeof check of the handler: is the value a string. -/
def isString : Option JValue → Bool
  | some (.jstr _) => true
  | _ => false

/-- Extract the string content (only used after the string guard passed). -/
def asString : Option JValue → String
  | some (.jstr s) => s
  | _ => ""

/-- A structured Error message sent to the client: error.type, error.code,
error.message. -/
structure ErrMsg where
  etype : String
  code : String
  message : String
deriving DecidableEq

/-- A call the handler makes on the upstream Deepgram connection. -/
inductive UpstreamAction
  | sendText (s : String)
  | flushBuffer
  | clearBuffer
  | requestClose
deriving DecidableEq

/-- One downstream message after JSON.parse: either a parse failure with the
thrown message, or an object dispatched on its type field. -/
inductive ClientMessage
  | speak (text : Option JValue)
  | flush
  | clear
  | close
  | unknownType (t : String)
  | malformed (parseError : String)

/-- Everything a single handler invocation does: Error replies sent
downstream, calls made on the upstream connection, and an optional close of
the downstream socket. -/
structure HandlerResult where
  replies : List ErrMsg
  upstream : List UpstreamAction
  closeDownstream : Option (Int × String)
deriving DecidableEq

/-- The Error reply for a missing or invalid text field. -/
def invalidTextError : ErrMsg :=
  ⟨"VALIDATION_ERROR", "INVALID_TEXT",
   "Text field is required and must be a non-empty string"⟩

/-- The Error reply for a Speak before the upstream Open event. -/
def notReadyError : ErrMsg :=
  ⟨"CONNECTION_ERROR", "CONNECTION_FAILED",
   "Deepgram connection is not ready yet. Please wait for the Open event."⟩

/-- clientWs message callback of src/unnamed/part_002 (lines 249-343) as a
function of the readiness flag, whether the SDK connection supports clear,
whether the connection object is still present, and the parsed message. -/
def handleClientMessage (isConnectionReady clearSupported hasConn : Bool)
    (msg : ClientMessage) : HandlerResult :=
  match msg with
  | .malformed e =>
      { replies := [⟨"PARSING_ERROR", "INVALID_TEXT", "Failed to parse message: " ++ e⟩],
        upstream := [], closeDownstream := none }
  | .speak t =>
      if !(truthy t) || !(isString t) then
        { replies := [invalidTextError], upstream := [], closeDownstream := none }
      else if !isConnectionReady then
        { replies := [notReadyError], upstream := [], closeDownstream := none }
      else
        { replies := [],
          upstream := [.sendText (asString t), .flushBuffer],
          closeDownstream := none }
  | .flush =>
      { replies := [], upstream := [.flushBuffer], closeDownstream := none }
  | .clear =>
      { replies := [],
        upstream := if clearSupported then [.clearBuffer] else [],
        closeDownstream := none }
  | .close =>
      { replies := [],
        upstream := if hasConn then [.requestClose] else [],
        closeDownstream := some (1000, "Normal closure") }
  | .unknownType _ =>
      { replies := [], upstream := [], closeDownstream := none }

/-- C2 (counterexample): a Speak whose text is missing, received before the
upstream is ready, is answered with the validation error, not with the
CONNECTION_ERROR/CONNECTION_FAILED reply the claim requires for every Speak
in that state. -/
theorem speak_before_ready_invalid_text_reply :
    (handleClientMessage false false true (.speak none)).replies
        = [invalidTextError] ∧
    ¬ ((handleClientMessage false false true (.speak none)).replies.map
          (fun e => (e.etype, e.code))
        = [("CONNECTION_ERROR", "CONNECTION_FAILED")]) := by
  exact ⟨rfl, by decide⟩

/-- C2 (amended): before the upstream Open event, no Speak is ever forwarded
upstream, and a Speak carrying a valid (non-empty string) text is rejected
with the CONNECTION_ERROR/CONNECTION_FAILED reply; an invalid text is
instead rejected by the validation check. -/
theorem speak_before_ready_rejected (clearSupported hasConn : Bool)
    (t : Option JValue) :
    (handleClientMessage false clearSupported hasConn (.speak t)).upstream = [] ∧
    (truthy t = true → isString t = true →
      (handleClientMessage false clearSupported hasConn (.speak t)).replies
        = [notReadyError]) := by
  constructor
  · rcases h1 : truthy t <;> rcases h2 : isString t <;>
      simp [handleClientMessage, h1, h2]
  · intro h1 h2
    simp [handleClientMessage, h1, h2]

/-- C2 (witness): a valid Speak before readiness gets the connection error
and nothing reaches the upstream. -/
theorem speak_before_ready_rejected_witness :
    (handleClientMessage false false true (.speak (some (.jstr "hi")))).upstream
        = [] ∧
    (handleClientMessage false false true (.speak (some (.jstr "hi")))).replies
        = [notReadyError] :=
  ⟨(speak_before_ready_rejected false true (some (.jstr "hi"))).1,
   (speak_before_ready_rejected false true (some (.jstr "hi"))).2 (by decide) rfl⟩

/-- C4: a Speak with a missing text field or an empty-string text is always
answered with the VALIDATION_ERROR/INVALID_TEXT reply and nothing is sent
upstream, in every readiness state. -/
theorem speak_missing_or_empty_text_rejected
    (isConnectionReady clearSupported hasConn : Bool) :
    (handleClientMessage isConnectionReady clearSupported hasConn
        (.speak none)).replies = [invalidTextError] ∧
    (handleClientMessage isConnectionReady clearSupported hasConn
        (.speak none)).upstream = [] ∧
    (handleClientMessage isConnectionReady clearSupported hasConn
        (.speak (some (.jstr "")))).replies = [invalidTextError] ∧
    (handleClientMessage isConnectionReady clearSupported hasConn
        (.speak (some (.jstr "")))).upstream = [] := by
  cases isConnectionReady <;> cases clearSupported <;> cases hasConn <;> decide

/-- C6: a downstream message that fails to parse is answered with a
PARSING_ERROR/INVALID_TEXT reply whose message carries the parse failure
reason as a suffix, nothing goes upstream, and neither socket is closed: the
session stays open. -/
theorem malformed_message_parsing_error
    (isConnectionReady clearSupported hasConn : Bool) (e : String) :
    (handleClientMessage isConnectionReady clearSupported hasConn
        (.malformed e)).replies
      = [⟨"PARSING_ERROR", "INVALID_TEXT", "Failed to parse message: " ++ e⟩] ∧
    (∃ p, ("Failed to parse message: " ++ e) = p ++ e) ∧
    (handleClientMessage isConnectionReady clearSupported hasConn
        (.malformed e)).upstream = [] ∧
    (handleClientMessage isConnectionReady clearSupported hasConn
        (.malformed e)).closeDownstream = none :=
  ⟨rfl, ⟨"Failed to parse message: ", rfl⟩, rfl, rfl⟩

/-- C10: text validation comes before the readiness check: whenever the text
field is falsy or not a string, even with the upstream not ready, the reply
is the VALIDATION_ERROR/INVALID_TEXT one, never the connection error; in
particular every non-string text value is rejected this way. -/
theorem speak_validation_precedence
    (isConnectionReady clearSupported hasConn : Bool) (t : Option JValue)
    (h : truthy t = false ∨ isString t = false) :
    (handleClientMessage isConnectionReady clearSupported hasConn
        (.speak t)).replies = [invalidTextError] ∧
    invalidTextError.etype ≠ "CONNECTION_ERROR" ∧
    (handleClientMessage isConnectionReady clearSupported hasConn
        (.speak t)).upstream = [] := by
  have hcond : (!(truthy t) || !(isString t)) = true := by
    rcases h with h | h <;> simp [h]
  refine ⟨?_, by decide, ?_⟩ <;>
    simp only [handleClientMessage, hcond, if_true]

/-- C10 (witness): a numeric text with the upstream not ready gets the
validation reply and nothing is forwarded. -/
theorem speak_validation_precedence_witness :
    (handleClientMessage false false true (.speak (some (.jnum 7)))).replies
        = [invalidTextError] ∧
    invalidTextError.etype ≠ "CONNECTION_ERROR" ∧
    (handleClientMessage false false true (.speak (some (.jnum 7)))).upstream
        = [] :=
  speak_validation_precedence false false true (some (.jnum 7))
    (Or.inr (by decide))

/-! Upstream error surfacing (src/unnamed/part_002 lines 229-244) and the
client close handler (src/frontend/main.js lines 243-259). -/

/-- The message picked for the Error reply: the error message of the
provider, with the JS falsy-or fallback for a missing or empty one. -/
def errText : Option String → String
  | none => "Unknown error occurred"
  | some m => if m == "" then "Unknown error occurred" else m

/-- LiveTTSEvents Error handler: send a TTS_ERROR/AUDIO_GENERATION_ERROR
reply carrying the message, then close the downstream socket with code
1011. -/
def onUpstreamError (m : Option String) : ErrMsg × (Int × String) :=
  (⟨"TTS_ERROR", "AUDIO_GENERATION_ERROR", errText m⟩, (1011, "Server error"))

/-- Status message the frontend shows on socket close (main.js 243-259):
nothing for 1011 (the error was already surfaced) and nothing for 1000,
a generic warning otherwise. -/
def handleSocketClose (code : Int) : Option String :=
  if code = 1011 then none
  else if code = 1000 then none
  else some ("Connection closed unexpectedly (code: " ++ toString code ++ ")")

/-- C9 (counterexample): when the provider reports an empty error message
the relay does not forward that message but substitutes the fallback text,
so the reply does not carry the provider message for every upstream
error. -/
theorem upstream_error_empty_message_fallback :
    (onUpstreamError (some "")).1.message ≠ "" := by decide

/-- C9 (amended): for every upstream error with a non-empty message, the
relay replies TTS_ERROR/AUDIO_GENERATION_ERROR with the provider message
(falling back to a default text only when the message is empty or missing),
then closes downstream with the server-error code 1011, which differs from
the normal closure code 1000 and on which the client close handler shows no
status, leaving the surfaced error in place. -/
theorem upstream_error_surfaced (m : String) (h : m ≠ "") :
    (onUpstreamError (some m)).1
        = ⟨"TTS_ERROR", "AUDIO_GENERATION_ERROR", m⟩ ∧
    (onUpstreamError (some m)).2 = (1011, "Server error") ∧
    (onUpstreamError (some m)).2.1 ≠ 1000 ∧
    handleSocketClose (onUpstreamError (some m)).2.1 = none := by
  have hm : (m == "") = false := by
    simp [h]
  refine ⟨?_, rfl, by norm_num [onUpstreamError], rfl⟩
  simp [onUpstreamError, errText, hm]

/-- C9 (witness): a concrete provider error message is surfaced and followed
by the 1011 close. -/
theorem upstream_error_surfaced_witness :
    (onUpstreamError (some "model blew up")).1
        = ⟨"TTS_ERROR", "AUDIO_GENERATION_ERROR", "model blew up"⟩ ∧
    (onUpstreamError (some "model blew up")).2 = (1011, "Server error") ∧
    (onUpstreamError (some "model blew up")).2.1 ≠ 1000 ∧
    handleSocketClose (onUpstreamError (some "model blew up")).2.1 = none :=
  upstream_error_surfaced "model blew up" (by decide)

end LiveTTS
